import Mathlib

/-!
# Verification of the Simple_mcp client/server scripts

Shallow embedding of `src/sim_server.py` and `src/sim_client.py`.

* JSON values produced by `json.loads` are modelled by the inductive type
  `JsonValue`; the parser itself (the Python `json` standard library, not part
  of this repository) is kept abstract as a parameter
  `parse : String → Option JsonValue` (`none` models `json.JSONDecodeError`).
* Python string primitives used by the client (`str.strip`, `str.startswith`,
  slicing `s[5:]`) are embedded as `pyStrip`, `pyStartsWith`, `pyDrop`,
  operating on the character sequence of the string, as in Python.
  (`pyStrip` strips the ASCII whitespace characters recognised by
  `Char.isWhitespace`.)
* The network is modelled by an `HttpOutcome` per exchange: either an
  exception raised inside the `try` of `send_mcp_request` (connection
  refused, timeouts, ...) or an `HttpResponse` carrying a status code, the
  response headers, the raw body (`response.aread`) and the body split into
  lines (`response.aiter_lines`).
* `main` of `sim_client.py` is embedded as `clientRun`, a function from an
  oracle `Nat → HttpOutcome` (the outcome of the n-th exchange) to the trace
  of sent requests and the list of printed lines.  Python `AttributeError`/
  `TypeError`/`KeyError`/`IndexError` raised while picking a response apart
  are modelled with `Except String`; the top-level `except` handler of `main`
  corresponds to the `StepResult.fail`/abort branches.
-/

/-- JSON values as returned by `json.loads`: `obj` keeps the key insertion
order of the Python dict, `num` covers the integral numbers exchanged by the
scripts. -/
inductive JsonValue where
  | null
  | bool (b : Bool)
  | num (n : Int)
  | str (s : String)
  | arr (elems : List JsonValue)
  | obj (fields : List (String × JsonValue))
deriving Repr

/-- Python truthiness (`if x:`) of a JSON value: `None`, `False`, `0`, `""`,
`[]` and `{}` are falsy. -/
def JsonValue.truthy : JsonValue → Bool
  | .null => false
  | .bool b => b
  | .num n => n != 0
  | .str s => s != ""
  | .arr xs => !xs.isEmpty
  | .obj fs => !fs.isEmpty

/-- Truthiness of `response_data`, which is either `None` or a parsed JSON
value. -/
def truthyOpt : Option JsonValue → Bool
  | none => false
  | some j => j.truthy

mutual

/-- Python `repr` of a JSON-shaped value (used when a dict or list appears
inside an f-string). -/
def pyRepr : JsonValue → String
  | .null => "None"
  | .bool b => if b then "True" else "False"
  | .num n => toString n
  | .str s => "\x27" ++ s ++ "\x27"
  | .arr xs => "[" ++ pyReprList xs ++ "]"
  | .obj fs => "\x7b" ++ pyReprObj fs ++ "\x7d"

def pyReprList : List JsonValue → String
  | [] => ""
  | [x] => pyRepr x
  | x :: y :: xs => pyRepr x ++ ", " ++ pyReprList (y :: xs)

def pyReprObj : List (String × JsonValue) → String
  | [] => ""
  | [(k, v)] => "\x27" ++ k ++ "\x27: " ++ pyRepr v
  | (k, v) :: g :: fs =>
    "\x27" ++ k ++ "\x27: " ++ pyRepr v ++ ", " ++ pyReprObj (g :: fs)

end

/-- Python `str` of a JSON-shaped value, as interpolated by an f-string. -/
def pyStr : JsonValue → String
  | .str s => s
  | j => pyRepr j

/-- Python `s.startswith(p)`. -/
def pyStartsWith (s p : String) : Bool := p.data.isPrefixOf s.data

/-- Python `s.strip()`. -/
def pyStrip (s : String) : String :=
  String.mk (((s.data.dropWhile Char.isWhitespace).reverse.dropWhile
    Char.isWhitespace).reverse)

/-- Python `s[n:]`. -/
def pyDrop (n : Nat) (s : String) : String := String.mk (s.data.drop n)

/-- The SSE parsing loop of `send_mcp_request`
(`async for line in response.aiter_lines(): ...`): strip the line, skip
empty lines and `:` comments, and on a `data:` line try to parse the
remainder, keeping the last successfully parsed payload in `response_data`
(the accumulator `acc`). -/
def parseSSEStream (parse : String → Option JsonValue) :
    Option JsonValue → List String → Option JsonValue
  | acc, [] => acc
  | acc, l :: ls =>
    let line := pyStrip l
    if line = "" then parseSSEStream parse acc ls
    else if pyStartsWith line ":" then parseSSEStream parse acc ls
    else if pyStartsWith line "data:" then
      match parse (pyStrip (pyDrop 5 line)) with
      | some j => parseSSEStream parse (some j) ls
      | none => parseSSEStream parse acc ls
    else parseSSEStream parse acc ls

/-- The payload contributed by a single stream line, following the words of
the specification: a line counts iff, after stripping surrounding
whitespace, it starts with `data:` and its remainder parses as JSON. -/
def dataLinePayload (parse : String → Option JsonValue) (l : String) :
    Option JsonValue :=
  let line := pyStrip l
  if pyStartsWith line "data:" then parse (pyStrip (pyDrop 5 line)) else none

/-- Specification-side description of the stream parser: the JSON value of
the last well-formed `data:` line, if any. -/
def lastDataPayload (parse : String → Option JsonValue) (lines : List String) :
    Option JsonValue :=
  (lines.filterMap (dataLinePayload parse)).getLast?

/-- Lookup of a response header (`response.headers.get(k)`). -/
def headerGet (hs : List (String × String)) (k : String) : Option String :=
  hs.lookup k

/-- Python `a or b` on optional strings: `None` and `""` fall through to the
second operand. -/
def pyOrStr (a b : Option String) : Option String :=
  match a with
  | some s => if s = "" then b else some s
  | none => b

/-- An HTTP response as observed by `send_mcp_request`: status code, response
headers, the raw body (`response.aread`, used on the error path) and the body
split into lines (`response.aiter_lines`, used on the success path). -/
structure HttpResponse where
  status : Nat
  headers : List (String × String)
  raw : String
  lines : List String

/-- The outcome of one HTTP exchange: either an exception raised inside the
`try` of `send_mcp_request` (e.g. connection refused) with its message, or a
response. -/
inductive HttpOutcome where
  | exn (msg : String)
  | resp (r : HttpResponse)

/-- The function `send_mcp_request` of `sim_client.py`: returns `response_data`, the new
session id, and the lines it prints.  A non-200 status prints the status and
body and returns `(None, None)`; an exception prints the error and returns
`(None, None)`; on success the SSE stream is parsed and the session id is
taken from the `mcp-session-id` header, falling back to `x-session-id`. -/
def send_mcp_request (parse : String → Option JsonValue)
    (outcome : HttpOutcome) :
    Option JsonValue × Option String × List String :=
  match outcome with
  | .exn msg => (none, none, ["Error in request: " ++ msg])
  | .resp r =>
    if r.status ≠ 200 then
      (none, none, ["Error: " ++ toString r.status, "Response: " ++ r.raw])
    else
      (parseSSEStream parse none r.lines,
       pyOrStr (headerGet r.headers "mcp-session-id")
         (headerGet r.headers "x-session-id"),
       [])

/-- The request headers built by `send_mcp_request`; the session header is
added only when `session_id` is truthy (present and non-empty). -/
def requestHeaders (sessionId : Option String) : List (String × String) :=
  let base := [("Accept", "application/json, text/event-stream"),
               ("Content-Type", "application/json")]
  match sessionId with
  | some sid => if sid = "" then base else base ++ [("mcp-session-id", sid)]
  | none => base

/-- The `greet` tool of `sim_server.py`. -/
def greet (name : String) : String :=
  "Hello, " ++ name ++ "! Welcome to the FastMCP server!"

/-- A JSON-RPC request envelope as built by `main` (the `jsonrpc: "2.0"`
field is common to all of them and omitted). -/
structure McpRequest where
  id : Nat
  method : String
  params : JsonValue

/-- The hardcoded server URL of `sim_client.py`. -/
def serverUrl : String := "http://127.0.0.1:8000/mcp"

/-- The `initialize` request (id 1). -/
def initRequest : McpRequest :=
  ⟨1, "initialize",
   .obj [("protocolVersion", .str "2024-11-05"),
         ("capabilities", .obj []),
         ("clientInfo", .obj [("name", .str "test-client"),
                              ("version", .str "1.0")])]⟩

/-- The `tools/list` request (id 2). -/
def listRequest : McpRequest := ⟨2, "tools/list", .obj []⟩

/-- The `tools/call` request for iteration `idx` of the loop over `names`
(id `3 + idx`). -/
def callRequest (idx : Nat) (name : String) : McpRequest :=
  ⟨3 + idx, "tools/call",
   .obj [("name", .str "greet"),
         ("arguments", .obj [("name", .str name)])]⟩

/-- The names the client greets, in order. -/
def clientNames : List String := ["tea", "stu"]

/-- The fixed request sequence of a fully successful client run. -/
def fixedRequests : List McpRequest :=
  [initRequest, listRequest, callRequest 0 "tea", callRequest 1 "stu"]

/-- The `tools/call` requests issued for a (sub)list of names starting at
loop index `idx`. -/
def callReqList : Nat → List String → List McpRequest
  | _, [] => []
  | idx, n :: rest => callRequest idx n :: callReqList (idx + 1) rest

/-- One request as sent on the wire: the URL, the envelope, and the session
id that `main` passed to `send_mcp_request` (carried in the headers via
`requestHeaders`). -/
structure SentRequest where
  url : String
  req : McpRequest
  session : Option String

/-- Python `d.get(key, default)`: raises `AttributeError` when the receiver
is not a dict. -/
def pyGet (j : JsonValue) (key : String) (dflt : JsonValue) :
    Except String JsonValue :=
  match j with
  | .obj fs => .ok ((fs.lookup key).getD dflt)
  | _ => .error "AttributeError"

/-- Python `str(d.get(key, default))` for a field list and a string default. -/
def lookupStrD (fs : List (String × JsonValue)) (key dflt : String) : String :=
  match fs.lookup key with
  | some v => pyStr v
  | none => dflt

/-- Python `d.get(key, default)` displayed through an f-string, with a string
default: raises `AttributeError` when the receiver is not a dict. -/
def pyGetStrD (j : JsonValue) (key dflt : String) : Except String String :=
  match j with
  | .obj fs => .ok (lookupStrD fs key dflt)
  | _ => .error "AttributeError"

/-- Python `key in x` for a string key: key containment for dicts, element
containment for lists, substring test for strings, `TypeError` otherwise. -/
def pyContains (j : JsonValue) (key : String) : Except String Bool :=
  match j with
  | .obj fs => .ok (fs.any (fun f => f.1 == key))
  | .arr xs => .ok (xs.any (fun x => match x with
      | .str s => s == key
      | _ => false))
  | .str s => .ok (decide ((s.splitOn key).length > 1))
  | _ => .error "TypeError"

/-- Python `len(x)`: `TypeError` on values without a length. -/
def pyLen : JsonValue → Except String Nat
  | .str s => .ok s.length
  | .arr xs => .ok xs.length
  | .obj fs => .ok fs.length
  | _ => .error "TypeError"

/-- Python `x[0]`: first element of a list, first character of a string,
`KeyError` on a dict (whose keys are strings), `TypeError` otherwise. -/
def pyIndexZero : JsonValue → Except String JsonValue
  | .arr [] => .error "IndexError"
  | .arr (x :: _) => .ok x
  | .str s =>
    match s.data with
    | [] => .error "IndexError"
    | c :: _ => .ok (.str (String.mk [c]))
  | .obj _ => .error "KeyError"
  | _ => .error "TypeError"

/-- Python `for x in v`: lists iterate their elements, dicts their keys,
strings their characters; other values raise `TypeError`. -/
def pyIter : JsonValue → Except String (List JsonValue)
  | .arr xs => .ok xs
  | .obj fs => .ok (fs.map (fun f => .str f.1))
  | .str s => .ok (s.data.map (fun c => .str (String.mk [c])))
  | _ => .error "TypeError"

/-- The conditional `if x: print(f"Response: {x}")` used after both tool
failures in `main`. -/
def responseNote : Option JsonValue → List String
  | some j => if j.truthy then ["Response: " ++ pyStr j] else []
  | none => []

/-- The lines printed by the `for tool in tools:` loop of `main`, paired with
the uncaught exception that aborts the loop, if any. -/
def toolLines : List JsonValue → List String × Option String
  | [] => ([], none)
  | t :: ts =>
    match pyGetStrD t "name" "unknown" with
    | .error e => ([], some e)
    | .ok n =>
      match pyGetStrD t "description" "N/A" with
      | .error e => ([], some e)
      | .ok d =>
        let r := toolLines ts
        (("  - " ++ n ++ ": " ++ d) :: r.1, r.2)

/-- How a phase of `main` ends: fall through to the next phase, return
normally from `main`, or propagate an exception to the top-level handler. -/
inductive StepResult where
  | proceed
  | stop
  | fail (e : String)
deriving DecidableEq, Repr

/-- Display of `session_id` inside an f-string. -/
def optDisplay : Option String → String
  | some s => s
  | none => "None"

/-- Handling of the `initialize` response in `main`: a falsy payload prints a
failure message and returns; otherwise the server info is extracted (guarded
by defaults) and printed. -/
def handleInit (initResp : Option JsonValue) (sid : Option String) :
    List String × StepResult :=
  match initResp with
  | none => (["Failed to initialize server connection"], .stop)
  | some j =>
    if j.truthy = false then
      (["Failed to initialize server connection"], .stop)
    else
      match pyGet j "result" (.obj []) with
      | .error e => (["[OK] Connected to MCP server\n"], .fail e)
      | .ok res =>
      match pyGet res "serverInfo" (.obj []) with
      | .error e => (["[OK] Connected to MCP server\n"], .fail e)
      | .ok si =>
      match pyGetStrD si "name" "unknown" with
      | .error e => (["[OK] Connected to MCP server\n"], .fail e)
      | .ok nm =>
      match pyGetStrD si "version" "unknown" with
      | .error e =>
        (["[OK] Connected to MCP server\n", "Server name: " ++ nm], .fail e)
      | .ok ver =>
        (["[OK] Connected to MCP server\n",
          "Server name: " ++ nm,
          "Server version: " ++ ver ++ "\n",
          "Session ID: " ++ optDisplay sid ++ "\n",
          "Fetching available tools...\n"], .proceed)

/-- Handling of the `tools/list` response in `main`: on
`tools_response and 'result' in tools_response` the tools are listed and the
call loop runs; otherwise an error is printed and the calls are skipped. -/
def handleTools (toolsResp : Option JsonValue) : List String × StepResult :=
  match toolsResp with
  | none => ("Error listing tools" :: responseNote none, .stop)
  | some j =>
    if j.truthy = false then
      ("Error listing tools" :: responseNote (some j), .stop)
    else
      match pyContains j "result" with
      | .error e => ([], .fail e)
      | .ok false => ("Error listing tools" :: responseNote (some j), .stop)
      | .ok true =>
        match pyGet j "result" (.obj []) with
        | .error e => ([], .fail e)
        | .ok tres =>
        match pyGet tres "tools" (.arr []) with
        | .error e => ([], .fail e)
        | .ok toolsJ =>
          match pyIter toolsJ with
          | .error e => (["Available tools:"], .fail e)
          | .ok toolList =>
            let tl := toolLines toolList
            match tl.2 with
            | some e => ("Available tools:" :: tl.1, .fail e)
            | none => ("Available tools:" :: tl.1 ++ [""], .proceed)

/-- Handling of one `tools/call` response in `main`: the printed lines and
the uncaught exception, if any. -/
def handleCallResult (name : String) (result : Option JsonValue) :
    List String × Option String :=
  match result with
  | none => (("Error calling tool for " ++ name) :: responseNote none, none)
  | some j =>
    if j.truthy = false then
      (("Error calling tool for " ++ name) :: responseNote (some j), none)
    else
      match pyContains j "result" with
      | .error e => ([], some e)
      | .ok false =>
        (("Error calling tool for " ++ name) :: responseNote (some j), none)
      | .ok true =>
        match pyGet j "result" (.obj []) with
        | .error e => ([], some e)
        | .ok r1 =>
        match pyGet r1 "content" (.arr []) with
        | .error e => ([], some e)
        | .ok content =>
          if content.truthy = false then
            (["Greeting for " ++ name ++ ":", "  (No response)", ""], none)
          else
            match pyLen content with
            | .error e => (["Greeting for " ++ name ++ ":"], some e)
            | .ok n =>
              if n > 0 then
                match pyIndexZero content with
                | .error e => (["Greeting for " ++ name ++ ":"], some e)
                | .ok c0 =>
                  match pyGetStrD c0 "text" "No response" with
                  | .error e => (["Greeting for " ++ name ++ ":"], some e)
                  | .ok txt =>
                    (["Greeting for " ++ name ++ ":", "  " ++ txt, ""], none)
              else
                (["Greeting for " ++ name ++ ":", "  (No response)", ""], none)

/-- The lines printed by the top-level `except Exception` handler of
`main`. -/
def errorTail (e : String) : List String :=
  ["[ERROR] " ++ e,
   "\nTroubleshooting:",
   "1. Verify server is running: python sim_server.py",
   "2. Check server URL is correct: http://127.0.0.1:8000/mcp",
   "3. Check server logs for any errors"]

/-- The first two prints of `main`. -/
def introLines : List String :=
  ["Connecting to MCP server at " ++ serverUrl ++ "...\n",
   "Initializing connection...\n"]

/-- The `for idx, name in enumerate(names):` loop of `main`: iteration `idx`
sends `tools/call` through exchange `2 + idx` with the session id from
initialization; an exception while handling a response aborts the loop.
Returns the sent requests, the printed lines, and the uncaught exception. -/
def callLoop (parse : String → Option JsonValue) (oracle : Nat → HttpOutcome)
    (sid : Option String) :
    Nat → List String → List SentRequest × List String × Option String
  | _, [] => ([], [], none)
  | idx, name :: rest =>
    let s := send_mcp_request parse (oracle (2 + idx))
    let sent : SentRequest := ⟨serverUrl, callRequest idx name, sid⟩
    let hc := handleCallResult name s.1
    match hc.2 with
    | some e => ([sent], s.2.2 ++ hc.1, some e)
    | none =>
      let r := callLoop parse oracle sid (idx + 1) rest
      (sent :: r.1, s.2.2 ++ hc.1 ++ r.2.1, r.2.2)

/-- The function `main` of `sim_client.py`, as a function from the exchange
oracle to the trace of sent requests and the printed lines. -/
def clientRun (parse : String → Option JsonValue)
    (oracle : Nat → HttpOutcome) : List SentRequest × List String :=
  let s1 := send_mcp_request parse (oracle 0)
  let sent1 : SentRequest := ⟨serverUrl, initRequest, none⟩
  let hi := handleInit s1.1 s1.2.1
  match hi.2 with
  | .stop => ([sent1], introLines ++ s1.2.2 ++ hi.1)
  | .fail e => ([sent1], introLines ++ s1.2.2 ++ hi.1 ++ errorTail e)
  | .proceed =>
    let s2 := send_mcp_request parse (oracle 1)
    let sent2 : SentRequest := ⟨serverUrl, listRequest, s1.2.1⟩
    let ht := handleTools s2.1
    match ht.2 with
    | .stop =>
      ([sent1, sent2], introLines ++ s1.2.2 ++ hi.1 ++ s2.2.2 ++ ht.1)
    | .fail e =>
      ([sent1, sent2],
       introLines ++ s1.2.2 ++ hi.1 ++ s2.2.2 ++ ht.1 ++ errorTail e)
    | .proceed =>
      let cl := callLoop parse oracle s1.2.1 0 clientNames
      match cl.2.2 with
      | some e =>
        ([sent1, sent2] ++ cl.1,
         introLines ++ s1.2.2 ++ hi.1 ++ s2.2.2 ++ ht.1 ++ cl.2.1 ++
           errorTail e)
      | none =>
        ([sent1, sent2] ++ cl.1,
         introLines ++ s1.2.2 ++ hi.1 ++ s2.2.2 ++ ht.1 ++ cl.2.1)

/-- A concrete JSON parser used as a test fixture for the witnesses: it
recognises a handful of documents by their text. -/
def parseFix : String → Option JsonValue := fun s =>
  if s = "1" then some (.num 1)
  else if s = "2" then some (.num 2)
  else if s = "init" then
    some (.obj [("result",
      .obj [("serverInfo",
        .obj [("name", .str "Greeting Server"),
              ("version", .str "1.8.0")])])])
  else if s = "tools" then
    some (.obj [("result",
      .obj [("tools",
        .arr [.obj [("name", .str "greet"),
                    ("description", .str "Greets a person")]])])])
  else none

/-- The JSON document `parseFix` returns for `"init"`. -/
def witInit : JsonValue :=
  .obj [("result",
    .obj [("serverInfo",
      .obj [("name", .str "Greeting Server"),
            ("version", .str "1.8.0")])])]

/-- A concrete exchange oracle for a fully successful run: exchange 0 serves
the initialize payload together with a session header, exchange 1 the tool
list, and the two calls fail at the transport (their handling is trivially
exception-free). -/
def oracleFix : Nat → HttpOutcome := fun n =>
  if n = 0 then .resp ⟨200, [("mcp-session-id", "sess-1")], "", ["data: init"]⟩
  else if n = 1 then .resp ⟨200, [], "", ["data: tools"]⟩
  else .exn "connection refused"

/-- A concrete exchange oracle where every exchange fails. -/
def oracleDown : Nat → HttpOutcome := fun _ => .exn "connection refused"

/-- A list starting with one character cannot also start with a different
character. -/
theorem isPrefixOf_false_of_head_ne (c d : Char) (p q l : List Char)
    (hne : c ≠ d) (h : (c :: p).isPrefixOf l = true) :
    (d :: q).isPrefixOf l = false := by
  cases l with
  | nil => simp [List.isPrefixOf] at h
  | cons a as =>
    simp only [List.isPrefixOf, Bool.and_eq_true, beq_iff_eq] at h
    have hda : (d == a) = false := by
      rw [← h.1]
      exact beq_eq_false_iff_ne.mpr (Ne.symm hne)
    simp [List.isPrefixOf, hda]

/-- A stripped line starting with a comment colon does not carry a
well-formed data payload marker. -/
theorem colon_not_data (s : String) (h : pyStartsWith s ":" = true) :
    pyStartsWith s "data:" = false := by
  unfold pyStartsWith at h ⊢
  exact isPrefixOf_false_of_head_ne ':' 'd' [] ['a', 't', 'a', ':'] s.data
    (by decide) h

/-- The last element of a cons, in terms of the last element of the tail. -/
theorem getLast?_cons_elim {α : Type} (a : α) (l : List α) :
    (a :: l).getLast? = (l.getLast?).elim (some a) some := by
  induction l generalizing a with
  | nil => simp
  | cons b bs ih =>
    rw [List.getLast?_cons_cons, ih b]
    cases hbs : bs.getLast? <;> simp

/-- The SSE loop of `send_mcp_request` computes the payload of the last
well-formed `data:` line, defaulting to the accumulator. -/
theorem parseSSEStream_eq_lastData (parse : String → Option JsonValue) :
    ∀ (lines : List String) (acc : Option JsonValue),
      parseSSEStream parse acc lines = (lastDataPayload parse lines).elim acc some := by
  intro lines
  induction lines with
  | nil => intro acc; simp [parseSSEStream, lastDataPayload]
  | cons l ls ih =>
    intro acc
    by_cases h1 : pyStrip l = ""
    · have hpw : pyStartsWith "" "data:" = false := by decide
      have hf : dataLinePayload parse l = none := by
        simp [dataLinePayload, h1, hpw]
      have hstep : parseSSEStream parse acc (l :: ls) = parseSSEStream parse acc ls := by
        simp only [parseSSEStream]
        rw [if_pos h1]
      rw [hstep, ih acc]
      unfold lastDataPayload
      rw [List.filterMap_cons, hf]
    · by_cases h2 : pyStartsWith (pyStrip l) ":" = true
      · have hd : pyStartsWith (pyStrip l) "data:" = false := colon_not_data _ h2
        have hf : dataLinePayload parse l = none := by
          simp [dataLinePayload, hd]
        have hstep : parseSSEStream parse acc (l :: ls) = parseSSEStream parse acc ls := by
          simp only [parseSSEStream]
          rw [if_neg h1, if_pos h2]
        rw [hstep, ih acc]
        unfold lastDataPayload
        rw [List.filterMap_cons, hf]
      · by_cases h3 : pyStartsWith (pyStrip l) "data:" = true
        · have hf : dataLinePayload parse l = parse (pyStrip (pyDrop 5 (pyStrip l))) := by
            simp [dataLinePayload, h3]
          cases hp : parse (pyStrip (pyDrop 5 (pyStrip l))) with
          | some j =>
            have hstep : parseSSEStream parse acc (l :: ls)
                = parseSSEStream parse (some j) ls := by
              simp only [parseSSEStream]
              rw [if_neg h1, if_neg h2, if_pos h3, hp]
            rw [hstep, ih (some j)]
            unfold lastDataPayload
            rw [List.filterMap_cons, hf, hp]
            show _ = ((j :: List.filterMap (dataLinePayload parse) ls).getLast?).elim acc some
            rw [getLast?_cons_elim]
            cases hg : (List.filterMap (dataLinePayload parse) ls).getLast? <;> simp
          | none =>
            have hstep : parseSSEStream parse acc (l :: ls)
                = parseSSEStream parse acc ls := by
              simp only [parseSSEStream]
              rw [if_neg h1, if_neg h2, if_pos h3, hp]
            rw [hstep, ih acc]
            unfold lastDataPayload
            rw [List.filterMap_cons, hf, hp]
        · have hf : dataLinePayload parse l = none := by
            simp [dataLinePayload, h3]
          have hstep : parseSSEStream parse acc (l :: ls)
              = parseSSEStream parse acc ls := by
            simp only [parseSSEStream]
            rw [if_neg h1, if_neg h2, if_neg h3]
          rw [hstep, ih acc]
          unfold lastDataPayload
          rw [List.filterMap_cons, hf]

/-- C1: for every string name, `greet` returns exactly
"Hello, {name}! Welcome to the FastMCP server!"; in particular "tea" and
"stu" yield the two literal greetings of the specification. -/
theorem greet_formats_greeting :
    (∀ name : String,
       greet name = "Hello, " ++ name ++ "! Welcome to the FastMCP server!")
    ∧ greet "tea" = "Hello, tea! Welcome to the FastMCP server!"
    ∧ greet "stu" = "Hello, stu! Welcome to the FastMCP server!" :=
  ⟨fun _ => rfl, rfl, rfl⟩

/-- C2: on a 200 exchange, the payload `send_mcp_request` returns is the JSON
value parsed from the last stream line that, after stripping, starts with
`data:` and whose remainder parses; earlier payloads are discarded. -/
theorem send_returns_last_data_payload (parse : String → Option JsonValue)
    (r : HttpResponse) (h : r.status = 200) :
    (send_mcp_request parse (HttpOutcome.resp r)).1 = lastDataPayload parse r.lines := by
  simp only [send_mcp_request, h]
  rw [if_neg (by simp)]
  rw [parseSSEStream_eq_lastData]
  cases hl : lastDataPayload parse r.lines <;> simp

/-- Witness for C2 at a concrete stream: the second well-formed payload wins
over the first, the comment, the malformed line and the blank line. -/
theorem send_returns_last_data_payload_witness :
    (HttpResponse.mk 200 [] ""
        ["data: 1", ": comment", "data: oops", "", "data: 2"]).status = 200
    ∧ (send_mcp_request parseFix (HttpOutcome.resp
         (HttpResponse.mk 200 [] ""
           ["data: 1", ": comment", "data: oops", "", "data: 2"]))).1
        = lastDataPayload parseFix
            ["data: 1", ": comment", "data: oops", "", "data: 2"]
    ∧ lastDataPayload parseFix
        ["data: 1", ": comment", "data: oops", "", "data: 2"]
        = some (JsonValue.num 2) :=
  ⟨rfl, send_returns_last_data_payload parseFix _ rfl, rfl⟩

/-- C4: a `data:` line whose remainder is not well-formed JSON is silently
skipped by the SSE loop: no error, and the payload accumulated from earlier
lines is unchanged. -/
theorem malformed_data_line_skipped (parse : String → Option JsonValue)
    (acc : Option JsonValue) (l : String) (ls : List String)
    (h1 : pyStartsWith (pyStrip l) "data:" = true)
    (h2 : parse (pyStrip (pyDrop 5 (pyStrip l))) = none) :
    parseSSEStream parse acc (l :: ls) = parseSSEStream parse acc ls := by
  have hne : ¬ (pyStrip l = "") := by
    intro he
    rw [he] at h1
    exact absurd h1 (by decide)
  have hc : ¬ (pyStartsWith (pyStrip l) ":" = true) := by
    intro hcc
    rw [colon_not_data _ hcc] at h1
    exact absurd h1 (by decide)
  simp only [parseSSEStream]
  rw [if_neg hne, if_neg hc, if_pos h1, h2]

/-- Witness for C4: the malformed line "data: oops" leaves the accumulated
payload alone. -/
theorem malformed_data_line_skipped_witness :
    pyStartsWith (pyStrip "data: oops") "data:" = true
    ∧ parseFix (pyStrip (pyDrop 5 (pyStrip "data: oops"))) = none
    ∧ parseSSEStream parseFix (some (JsonValue.num 1)) ["data: oops", "data: 2"]
        = parseSSEStream parseFix (some (JsonValue.num 1)) ["data: 2"] :=
  ⟨by decide, rfl,
   malformed_data_line_skipped parseFix (some (JsonValue.num 1)) "data: oops"
     ["data: 2"] (by decide) rfl⟩

/-- C5: a 200 exchange whose stream has no `data:` line returns an empty
payload rather than failing. -/
theorem no_data_line_yields_none (parse : String → Option JsonValue)
    (r : HttpResponse) (h : r.status = 200)
    (h2 : ∀ l ∈ r.lines, pyStartsWith (pyStrip l) "data:" = false) :
    (send_mcp_request parse (HttpOutcome.resp r)).1 = none := by
  simp only [send_mcp_request, h]
  rw [if_neg (by simp)]
  rw [parseSSEStream_eq_lastData]
  have hl : lastDataPayload parse r.lines = none := by
    unfold lastDataPayload
    rw [List.filterMap_eq_nil_iff.mpr ?_]
    · rfl
    · intro l hmem
      simp [dataLinePayload, h2 l hmem]
  rw [hl]
  rfl

/-- Witness for C5 at a stream of comments, blanks and unrelated fields. -/
theorem no_data_line_yields_none_witness :
    (HttpResponse.mk 200 [("x-session-id", "tok")] ""
        [": hello", "event: message", "", "  "]).status = 200
    ∧ (∀ l ∈ [": hello", "event: message", "", "  "],
         pyStartsWith (pyStrip l) "data:" = false)
    ∧ (send_mcp_request parseFix (HttpOutcome.resp
         (HttpResponse.mk 200 [("x-session-id", "tok")] ""
           [": hello", "event: message", "", "  "]))).1 = none :=
  ⟨rfl, by decide, no_data_line_yields_none parseFix _ rfl (by decide)⟩

/-- C9: on a 200 exchange the session token comes from the response headers
(`mcp-session-id`, falling back to `x-session-id`) and never from the body:
the formula does not mention the body, and an empty stream can still yield a
token. -/
theorem session_token_from_headers_only :
    (∀ (parse : String → Option JsonValue) (hs : List (String × String))
       (raw : String) (lines : List String),
       (send_mcp_request parse (HttpOutcome.resp ⟨200, hs, raw, lines⟩)).2.1
         = pyOrStr (headerGet hs "mcp-session-id") (headerGet hs "x-session-id"))
    ∧ (∀ parse : String → Option JsonValue,
       send_mcp_request parse
           (HttpOutcome.resp ⟨200, [("mcp-session-id", "sess-1")], "", []⟩)
         = (none, some "sess-1", [])) := by
  constructor
  · intro parse hs raw lines
    simp [send_mcp_request]
  · intro parse
    rfl

/-- Whatever the call loop does, the requests it sends are a front segment
of the call requests for its name list. -/
theorem callLoop_front (parse : String → Option JsonValue)
    (oracle : Nat → HttpOutcome) (sid : Option String) :
    ∀ (names : List String) (idx : Nat),
      ∃ t, ((callLoop parse oracle sid idx names).1.map (fun s => s.req)) ++ t
        = callReqList idx names := by
  intro names
  induction names with
  | nil => intro idx; exact ⟨[], rfl⟩
  | cons name rest ih =>
    intro idx
    simp only [callLoop]
    cases hc : (handleCallResult name
        (send_mcp_request parse (oracle (2 + idx))).1).2 with
    | some e => exact ⟨callReqList (idx + 1) rest, rfl⟩
    | none =>
      obtain ⟨t, ht⟩ := ih (idx + 1)
      refine ⟨t, ?_⟩
      simp only [callReqList, List.map_cons, List.cons_append]
      rw [ht]

/-- Every request the call loop sends carries the session id it was given. -/
theorem callLoop_session_all (parse : String → Option JsonValue)
    (oracle : Nat → HttpOutcome) (sid : Option String) :
    ∀ (names : List String) (idx : Nat),
      ((callLoop parse oracle sid idx names).1).all
        (fun s => s.session == sid) = true := by
  intro names
  induction names with
  | nil => intro idx; rfl
  | cons name rest ih =>
    intro idx
    simp only [callLoop]
    cases hc : (handleCallResult name
        (send_mcp_request parse (oracle (2 + idx))).1).2 with
    | some e => simp
    | none => simp [ih (idx + 1)]

/-- Whatever the oracle answers, the requests the client sends are a front
segment of the fixed four-request sequence. -/
theorem clientRun_front (parse : String → Option JsonValue)
    (oracle : Nat → HttpOutcome) :
    ∃ t, ((clientRun parse oracle).1.map (fun s => s.req)) ++ t
      = fixedRequests := by
  simp only [clientRun]
  cases hi2 : (handleInit (send_mcp_request parse (oracle 0)).1
      (send_mcp_request parse (oracle 0)).2.1).2 with
  | stop => exact ⟨[listRequest, callRequest 0 "tea", callRequest 1 "stu"], rfl⟩
  | fail e => exact ⟨[listRequest, callRequest 0 "tea", callRequest 1 "stu"], rfl⟩
  | proceed =>
    cases ht2 : (handleTools (send_mcp_request parse (oracle 1)).1).2 with
    | stop => exact ⟨[callRequest 0 "tea", callRequest 1 "stu"], rfl⟩
    | fail e => exact ⟨[callRequest 0 "tea", callRequest 1 "stu"], rfl⟩
    | proceed =>
      obtain ⟨t, ht⟩ := callLoop_front parse oracle
        (send_mcp_request parse (oracle 0)).2.1 clientNames 0
      cases cl2 : (callLoop parse oracle
          (send_mcp_request parse (oracle 0)).2.1 0 clientNames).2.2 with
      | some e =>
        refine ⟨t, ?_⟩
        simp only [List.map_append, List.map_cons, List.map_nil,
          List.cons_append, List.nil_append, List.append_assoc]
        rw [ht]
        rfl
      | none =>
        refine ⟨t, ?_⟩
        simp only [List.map_append, List.map_cons, List.map_nil,
          List.cons_append, List.nil_append, List.append_assoc]
        rw [ht]
        rfl

/-- The four fixed requests are pairwise distinct (their ids differ). -/
theorem fixedRequests_nodup : fixedRequests.Nodup := by
  simp [fixedRequests, initRequest, listRequest, callRequest,
    List.nodup_cons, List.mem_cons, McpRequest.mk.injEq]

/-- Every request sent after the first carries the session token returned by
the initialize exchange. -/
theorem clientRun_session (parse : String → Option JsonValue)
    (oracle : Nat → HttpOutcome) :
    ((clientRun parse oracle).1.tail).all
      (fun s => s.session == (send_mcp_request parse (oracle 0)).2.1) = true := by
  simp only [clientRun]
  cases hi2 : (handleInit (send_mcp_request parse (oracle 0)).1
      (send_mcp_request parse (oracle 0)).2.1).2 with
  | stop => rfl
  | fail e => rfl
  | proceed =>
    cases ht2 : (handleTools (send_mcp_request parse (oracle 1)).1).2 with
    | stop => simp
    | fail e => simp
    | proceed =>
      cases cl2 : (callLoop parse oracle
          (send_mcp_request parse (oracle 0)).2.1 0 clientNames).2.2 with
      | some e => simp [callLoop_session_all]
      | none => simp [callLoop_session_all]

/-- C3: every failed exchange — non-success HTTP status or transport error —
prints a diagnostic and returns the empty result `(None, None)` without
raising, and the client never sends the same request twice (no retry). -/
theorem failures_print_and_return_empty :
    (∀ (parse : String → Option JsonValue) (r : HttpResponse),
       r.status ≠ 200 →
       send_mcp_request parse (HttpOutcome.resp r)
         = (none, none, ["Error: " ++ toString r.status, "Response: " ++ r.raw]))
    ∧ (∀ (parse : String → Option JsonValue) (msg : String),
       send_mcp_request parse (HttpOutcome.exn msg)
         = (none, none, ["Error in request: " ++ msg]))
    ∧ (∀ (parse : String → Option JsonValue) (oracle : Nat → HttpOutcome),
       ((clientRun parse oracle).1.map (fun s => s.req)).Nodup) := by
  refine ⟨?_, ?_, ?_⟩
  · intro parse r h
    simp [send_mcp_request, h]
  · intro parse msg
    rfl
  · intro parse oracle
    obtain ⟨t, ht⟩ := clientRun_front parse oracle
    have h2 : (((clientRun parse oracle).1.map (fun s => s.req)) ++ t).Nodup := by
      rw [ht]
      exact fixedRequests_nodup
    exact List.Nodup.of_append_left h2

/-- Witness for C3 at a concrete 404 response. -/
theorem failures_print_and_return_empty_witness :
    (HttpResponse.mk 404 [] "Not Found" []).status ≠ 200
    ∧ send_mcp_request parseFix (HttpOutcome.resp
          (HttpResponse.mk 404 [] "Not Found" []))
        = (none, none,
           ["Error: " ++ toString (HttpResponse.mk 404 [] "Not Found" []).status,
            "Response: " ++ (HttpResponse.mk 404 [] "Not Found" []).raw]) :=
  ⟨by decide,
   failures_print_and_return_empty.1 parseFix
     (HttpResponse.mk 404 [] "Not Found" []) (by decide)⟩

/-- C6: on a successful run the client sends exactly initialize (id 1),
tools/list (id 2) and two tools/call requests for "tea" (id 3) and "stu"
(id 4), in that order, all to the hardcoded URL; and for every run whatsoever
the sent requests are a front segment of that fixed sequence, so no other
order or count is possible. -/
theorem client_fixed_sequence (parse : String → Option JsonValue)
    (oracle : Nat → HttpOutcome)
    (hInit : (handleInit (send_mcp_request parse (oracle 0)).1
        (send_mcp_request parse (oracle 0)).2.1).2 = StepResult.proceed)
    (hTools : (handleTools (send_mcp_request parse (oracle 1)).1).2
        = StepResult.proceed)
    (hTea : (handleCallResult "tea"
        (send_mcp_request parse (oracle 2)).1).2 = none)
    (hStu : (handleCallResult "stu"
        (send_mcp_request parse (oracle 3)).1).2 = none) :
    ((clientRun parse oracle).1.map (fun s => (s.url, s.req)))
      = [(serverUrl, initRequest), (serverUrl, listRequest),
         (serverUrl, callRequest 0 "tea"), (serverUrl, callRequest 1 "stu")]
    ∧ ∀ (q : String → Option JsonValue) (w : Nat → HttpOutcome),
        ∃ t, ((clientRun q w).1.map (fun s => s.req)) ++ t = fixedRequests := by
  refine ⟨?_, fun q w => clientRun_front q w⟩
  have h2 : (2 : Nat) + 0 = 2 := rfl
  have h3 : (2 : Nat) + (0 + 1) = 3 := rfl
  simp only [clientRun, hInit, hTools, clientNames, callLoop, h2, h3, hTea, hStu]
  rfl

/-- Witness for C6 at a concrete parser and oracle serving a successful
initialize payload and tool list. -/
theorem client_fixed_sequence_witness :
    (handleInit (send_mcp_request parseFix (oracleFix 0)).1
        (send_mcp_request parseFix (oracleFix 0)).2.1).2 = StepResult.proceed
    ∧ (handleTools (send_mcp_request parseFix (oracleFix 1)).1).2
        = StepResult.proceed
    ∧ (handleCallResult "tea" (send_mcp_request parseFix (oracleFix 2)).1).2 = none
    ∧ (handleCallResult "stu" (send_mcp_request parseFix (oracleFix 3)).1).2 = none
    ∧ ((clientRun parseFix oracleFix).1.map (fun s => (s.url, s.req)))
        = [(serverUrl, initRequest), (serverUrl, listRequest),
           (serverUrl, callRequest 0 "tea"), (serverUrl, callRequest 1 "stu")] :=
  ⟨rfl, rfl, rfl, rfl,
   (client_fixed_sequence parseFix oracleFix rfl rfl rfl rfl).1⟩

/-- C7: a non-empty session token is carried uninspected and unmodified in the
`mcp-session-id` request header (the base headers are extended with exactly
the token, unmodified), and every request sent after the first carries the
token returned by the initialize exchange. -/
theorem session_token_carried :
    (∀ sid : String, sid ≠ "" →
       requestHeaders (some sid)
         = requestHeaders none ++ [("mcp-session-id", sid)])
    ∧ (∀ (parse : String → Option JsonValue) (oracle : Nat → HttpOutcome),
       ((clientRun parse oracle).1.tail).all
         (fun s => s.session == (send_mcp_request parse (oracle 0)).2.1)
         = true) := by
  constructor
  · intro sid h
    simp [requestHeaders, h]
  · exact fun parse oracle => clientRun_session parse oracle

/-- Witness for C7 with the token "abc" and the concrete successful run. -/
theorem session_token_carried_witness :
    ("abc" : String) ≠ ""
    ∧ requestHeaders (some "abc")
        = requestHeaders none ++ [("mcp-session-id", "abc")]
    ∧ ((clientRun parseFix oracleFix).1.tail).all
        (fun s => s.session == (send_mcp_request parseFix (oracleFix 0)).2.1)
        = true :=
  ⟨by decide, session_token_carried.1 "abc" (by decide),
   session_token_carried.2 parseFix oracleFix⟩

/-- C10: when the initialize exchange yields a falsy payload (`None` or an
empty mapping parsed from the stream), the client prints a failure message
and stops: only the initialize request is ever sent. -/
theorem init_failure_stops_client (parse : String → Option JsonValue)
    (oracle : Nat → HttpOutcome)
    (h : (send_mcp_request parse (oracle 0)).1 = none
       ∨ (send_mcp_request parse (oracle 0)).1 = some (JsonValue.obj [])) :
    (clientRun parse oracle).1 = [⟨serverUrl, initRequest, none⟩]
    ∧ "Failed to initialize server connection" ∈ (clientRun parse oracle).2 := by
  have hhi : handleInit (send_mcp_request parse (oracle 0)).1
      (send_mcp_request parse (oracle 0)).2.1
      = (["Failed to initialize server connection"], StepResult.stop) := by
    rcases h with h | h <;> rw [h] <;> rfl
  constructor
  · simp only [clientRun, hhi]
  · simp only [clientRun, hhi]
    simp

/-- Witness for C10: with the server down the initialize payload is `None`
and only the initialize request is sent. -/
theorem init_failure_stops_client_witness :
    ((send_mcp_request parseFix (oracleDown 0)).1 = none
      ∨ (send_mcp_request parseFix (oracleDown 0)).1 = some (JsonValue.obj []))
    ∧ (clientRun parseFix oracleDown).1 = [⟨serverUrl, initRequest, none⟩] :=
  ⟨Or.inl rfl,
   (init_failure_stops_client parseFix oracleDown (Or.inl rfl)).1⟩

/-- C8: missing response fields are replaced by defaults instead of
crashing: a missing key yields the default through `lookupStrD`, a present
string key yields the string itself, the tool-listing loop prints every
object descriptor (with "N/A" for a missing description) without raising,
and after a successful initialize the client output shows the extracted
server name and version. -/
theorem client_guards_missing_fields :
    (∀ (fs : List (String × JsonValue)) (key dflt : String),
       fs.lookup key = none → lookupStrD fs key dflt = dflt)
    ∧ (∀ (fs : List (String × JsonValue)) (key dflt s : String),
       fs.lookup key = some (.str s) → lookupStrD fs key dflt = s)
    ∧ (toolLines [] = ([], none)
       ∧ ∀ (fs : List (String × JsonValue)) (ts : List JsonValue),
         toolLines (.obj fs :: ts)
           = (("  - " ++ lookupStrD fs "name" "unknown" ++ ": "
                ++ lookupStrD fs "description" "N/A") :: (toolLines ts).1,
              (toolLines ts).2))
    ∧ (∀ (parse : String → Option JsonValue) (oracle : Nat → HttpOutcome)
         (j res si : JsonValue) (nm ver : String),
       (send_mcp_request parse (oracle 0)).1 = some j →
       j.truthy = true →
       pyGet j "result" (.obj []) = .ok res →
       pyGet res "serverInfo" (.obj []) = .ok si →
       pyGetStrD si "name" "unknown" = .ok nm →
       pyGetStrD si "version" "unknown" = .ok ver →
       ("Server name: " ++ nm) ∈ (clientRun parse oracle).2
       ∧ ("Server version: " ++ ver ++ "\n") ∈ (clientRun parse oracle).2) := by
  refine ⟨?_, ?_, ⟨rfl, ?_⟩, ?_⟩
  · intro fs key dflt h
    simp [lookupStrD, h]
  · intro fs key dflt s h
    simp [lookupStrD, h, pyStr]
  · intro fs ts
    rfl
  · intro parse oracle j res si nm ver h1 h2 h3 h4 h5 h6
    have hhi : handleInit (send_mcp_request parse (oracle 0)).1
        (send_mcp_request parse (oracle 0)).2.1
        = (["[OK] Connected to MCP server\n",
            "Server name: " ++ nm,
            "Server version: " ++ ver ++ "\n",
            "Session ID: "
              ++ optDisplay (send_mcp_request parse (oracle 0)).2.1 ++ "\n",
            "Fetching available tools...\n"], .proceed) := by
      rw [h1]
      simp [handleInit, h2, h3, h4, h5, h6]
    simp only [clientRun, hhi]
    cases ht2 : (handleTools (send_mcp_request parse (oracle 1)).1).2 with
    | stop => constructor <;> simp
    | fail e => constructor <;> simp
    | proceed =>
      cases cl2 : (callLoop parse oracle
          (send_mcp_request parse (oracle 0)).2.1 0 clientNames).2.2 with
      | some e => constructor <;> simp
      | none => constructor <;> simp

/-- Witness for C8: a descriptor without a "name" key falls back to
"unknown", and the concrete successful run prints the extracted server
name. -/
theorem client_guards_missing_fields_witness :
    (([("version", JsonValue.str "2")] :
        List (String × JsonValue)).lookup "name" = none
      ∧ lookupStrD [("version", JsonValue.str "2")] "name" "unknown"
          = "unknown")
    ∧ ((send_mcp_request parseFix (oracleFix 0)).1 = some witInit
      ∧ ("Server name: " ++ "Greeting Server")
          ∈ (clientRun parseFix oracleFix).2) :=
  ⟨⟨rfl, client_guards_missing_fields.1 [("version", JsonValue.str "2")]
      "name" "unknown" rfl⟩,
   ⟨rfl, (client_guards_missing_fields.2.2.2 parseFix oracleFix witInit
      (JsonValue.obj [("serverInfo",
        JsonValue.obj [("name", JsonValue.str "Greeting Server"),
                       ("version", JsonValue.str "1.8.0")])])
      (JsonValue.obj [("name", JsonValue.str "Greeting Server"),
                      ("version", JsonValue.str "1.8.0")])
      "Greeting Server" "1.8.0" rfl rfl rfl rfl rfl rfl).1⟩⟩
